import Mathlib

/-!
Verification of the cgen single-header AST / code-generation library
(src/include/cgen.hpp).  The C++ library builds a tree of polymorphic
Node objects and renders it to C-like source text through a visitor
(CodeGenVisitor).  We embed the node hierarchy as an inductive type and
the double-dispatch rendering recursion as a fuel-indexed function: one
unit of fuel is consumed per accept/visit round trip, and exhausted fuel
(or a null unique_ptr child dereference) yields none.  All definitions
are translated from the source; the fuel only makes the C++ recursion,
which can diverge on a bare base-class Node, into a total Lean function.
-/

namespace CGen

/-- The Primitive::Kind enumeration of cgen.hpp (ten scalar kinds). -/
inductive Kind where
  | i8 | i16 | i32 | i64 | u8 | u16 | u32 | u64 | f32 | f64
deriving DecidableEq

/-- The closed set of node variants of cgen.hpp.  Every class deriving
from Node becomes a constructor; `bare` is an instance whose dynamic
type is the base class Node itself (Node is concrete in the C++ code).
Child slots held by std::unique_ptr, which may be null after default
construction, are Option Node; ordered child sequences
(std::vector of unique_ptr) are List Node.  Literal is a class template;
the three instantiations used by the library (numeric, string, char)
become three constructors, matching the three distinct dynamic types. -/
inductive Node where
  | bare : Node
  | program : List Node → Node
  | primitive : Kind → Node
  | type : String → Node
  | pointerOf : Option Node → Node
  | arrayOf : Option Node → Nat → Node
  | static : Option Node → Node
  | litInt : Int → Node
  | litStr : String → Node
  | litChar : Char → Node
  | declLocal : String → Option Node → Node
  | assign : Option Node → Option Node → Node
  | block : List Node → Node
  | function : String → List Node → Option Node → Option Node → Node
  | ret : Option Node → Node
  | field : Option Node → String → Node
  | declType : String → List Node → Node
  | deref : Option Node → Node
  | getRef : Option Node → Node
  | localVar : String → Node
  | call : Option Node → List Node → Node

/-- The switch statement of CodeGenVisitor::visit(Primitive*): each
enum value writes one fixed token to the stream. -/
def kindStr : Kind → String
  | .i8 => "char"
  | .i16 => "short"
  | .i32 => "int"
  | .i64 => "long"
  | .u8 => "unsigned char"
  | .u16 => "unsigned short"
  | .u32 => "unsigned int"
  | .u64 => "unsigned long"
  | .f32 => "float"
  | .f64 => "double"

/-- The statement-sequence loop shared by visit(Program*), visit(Block*)
and visit(DeclType*): each rendered element is written to the stream
followed by a semicolon. -/
def emitStmts : List String → String
  | [] => ""
  | s :: rest => s ++ ";" ++ emitStmts rest

/-- The indexed separator loop of visit(Function*) and visit(Call*): the
separator is written after every element except the last. -/
def joinSep (sep : String) : List String → String
  | [] => ""
  | [s] => s
  | s :: rest => s ++ sep ++ joinSep sep rest

/-- Sequencing of child renderings: the C++ loops render every child in
order, and a failure (modelled as none) anywhere gives no result. -/
def collect : List (Option String) → Option (List String)
  | [] => some []
  | o :: os => o.bind (fun s => (collect os).map (fun rest => s :: rest))

/-- The single-quote character (ASCII 39) used by the Literal char
specialization. -/
def squote : String := String.singleton (Char.ofNat 39)

/-- Fuel-indexed model of rendering a node with CodeGenVisitor: the
composition of Node::accept (virtual dispatch on the dynamic type) with
the matching CodeGenVisitor::visit overload.  One unit of fuel is spent
per dispatch round trip.  A bare base-class Node dispatches to
Node::accept, whose visitor->visit(this) call resolves to the
visit(Node*) overload, which calls node->accept(this) again: the model
recurses on the same node with less fuel.  A null unique_ptr child is
dereferenced without a check in the C++ code; that crash is modelled by
Option.bind over the absent child, giving none. -/
def accept : Nat → Node → Option String
  | 0, _ => none
  | f+1, .bare => accept f .bare
  | f+1, .program ns =>
      (collect (ns.map (fun m => accept f m))).map (fun ps => emitStmts ps)
  | _+1, .primitive k => some (kindStr k)
  | _+1, .type nm => some ("struct " ++ nm)
  | f+1, .pointerOf c =>
      (c.bind (fun m => accept f m)).map (fun s => s ++ "*")
  | f+1, .arrayOf c n =>
      (c.bind (fun m => accept f m)).map
        (fun s => s ++ "[" ++ (if 0 < n then toString n else "") ++ "]")
  | f+1, .static c =>
      (c.bind (fun m => accept f m)).map (fun s => "static " ++ s)
  | _+1, .litInt v => some (toString v)
  | _+1, .litStr v => some ("\"" ++ v ++ "\"")
  | _+1, .litChar v => some (squote ++ String.singleton v ++ squote)
  | f+1, .declLocal nm ty =>
      (ty.bind (fun m => accept f m)).map (fun s => s ++ " " ++ nm)
  | f+1, .assign lhs rhs =>
      (lhs.bind (fun m => accept f m)).bind (fun ls =>
        (rhs.bind (fun m => accept f m)).map (fun rs => ls ++ " = " ++ rs))
  | f+1, .block ns =>
      (collect (ns.map (fun m => accept f m))).map
        (fun ps => "\x7b" ++ emitStmts ps ++ "\x7d")
  | f+1, .function nm params rt body =>
      (rt.bind (fun m => accept f m)).bind (fun rts =>
        (collect (params.map (fun m => accept f m))).bind (fun pss =>
          (body.bind (fun m => accept f m)).map (fun bs =>
            rts ++ " " ++ nm ++ "(" ++ joinSep ", " pss ++ ")" ++ bs)))
  | f+1, .ret c =>
      (c.bind (fun m => accept f m)).map (fun s => "return " ++ s)
  | f+1, .field c nm =>
      (c.bind (fun m => accept f m)).map (fun s => s ++ "." ++ nm)
  | f+1, .declType nm fs =>
      (collect (fs.map (fun m => accept f m))).map
        (fun ps => "struct " ++ nm ++ "\x7b" ++ emitStmts ps ++ "\x7d;")
  | f+1, .deref c =>
      (c.bind (fun m => accept f m)).map (fun s => "(*" ++ s ++ ")")
  | f+1, .getRef c =>
      (c.bind (fun m => accept f m)).map (fun s => "(&" ++ s ++ ")")
  | _+1, .localVar nm => some nm
  | f+1, .call c args =>
      (c.bind (fun m => accept f m)).bind (fun cs =>
        (collect (args.map (fun m => accept f m))).map (fun argss =>
          cs ++ "(" ++ joinSep "," argss ++ ")"))

/-- Tags naming the dynamic types of the cgen class hierarchy: the base
class Node and each of its direct subclasses. -/
inductive VTag where
  | node | program | primitive | type | pointerOf | arrayOf | static
  | litInt | litStr | litChar | declLocal | assign | block | function
  | ret | field | declType | deref | getRef | localVar | call
deriving DecidableEq

/-- The dynamic type of a node. -/
def Node.vtag : Node → VTag
  | .bare => .node
  | .program _ => .program
  | .primitive _ => .primitive
  | .type _ => .type
  | .pointerOf _ => .pointerOf
  | .arrayOf _ _ => .arrayOf
  | .static _ => .static
  | .litInt _ => .litInt
  | .litStr _ => .litStr
  | .litChar _ => .litChar
  | .declLocal _ _ => .declLocal
  | .assign _ _ => .assign
  | .block _ => .block
  | .function _ _ _ _ => .function
  | .ret _ => .ret
  | .field _ _ => .field
  | .declType _ _ => .declType
  | .deref _ => .deref
  | .getRef _ => .getRef
  | .localVar _ => .localVar
  | .call _ _ => .call

/-- Node::as, i.e. dynamic_cast of a Node pointer to the class tagged t.
Every variant derives directly from Node and the hierarchy is flat, so
the cast yields the same object when the requested class is Node itself
(an upcast) or matches the dynamic type, and a null pointer otherwise. -/
def Node.as (n : Node) (t : VTag) : Option Node :=
  if t = VTag.node ∨ n.vtag = t then some n else none

/-- The CodeGenVisitor class: it declares no data members, so the model
carries no fields. -/
structure CodeGenVisitor where

/-- Rendering a tree through a CodeGenVisitor object: the result string
paired with the visitor as it is after the call.  The visitor comes back
unchanged because the class has no members and every visit overload
writes only to per-call local stringstreams. -/
def renderWith (v : CodeGenVisitor) (fuel : Nat) (n : Node) :
    Option String × CodeGenVisitor :=
  (accept fuel n, v)

/-- The Function tree of the §8 end-to-end example (built in
test_function of src/src/test.cpp): int main with parameters
int a0 and char* a1[] and body with unsigned char l0 and return 0. -/
def mainFn : Node :=
  Node.function "main"
    [Node.declLocal "a0" (some (.primitive .i32)),
     Node.arrayOf (some (.declLocal "a1" (some (.pointerOf (some (.primitive .i8)))))) 0]
    (some (.primitive .i32))
    (some (.block [.declLocal "l0" (some (.primitive .u8)),
                   .ret (some (.litInt 0))]))

lemma collect_append {l1 l2 : List (Option String)} {r1 r2 : List String}
    (h1 : collect l1 = some r1) (h2 : collect l2 = some r2) :
    collect (l1 ++ l2) = some (r1 ++ r2) := by
  induction l1 generalizing r1 with
  | nil =>
    simp only [collect] at h1
    cases h1
    simpa using h2
  | cons o os ih =>
    cases o with
    | none => simp [collect] at h1
    | some s =>
      simp only [collect, Option.some_bind] at h1
      cases hcos : collect os with
      | none => rw [hcos] at h1; simp at h1
      | some rest =>
        rw [hcos] at h1
        simp only [Option.map_some', Option.some.injEq] at h1
        subst h1
        simp [collect, ih hcos]

lemma emitStmts_append (l1 l2 : List String) :
    emitStmts (l1 ++ l2) = emitStmts l1 ++ emitStmts l2 := by
  induction l1 with
  | nil => simp [emitStmts]
  | cons s rest ih => simp [emitStmts, ih, String.append_assoc]

lemma semi_lit (z : String) : "\x7d;" ++ (";" ++ z) = "\x7d;;" ++ z := by
  cases z; rfl

lemma paren_lit (z : String) : "(" ++ (")" ++ z) = "()" ++ z := by
  cases z; rfl

/-- Claim C1: rendering the Function node named main, with return type
i32, parameters DeclLocal a0 of type i32 and ArrayOf a DeclLocal a1 of
type pointer to i8, and a body Block holding DeclLocal l0 of type u8 and
Return of Literal 0, with the code-generation visitor produces exactly
the string int main(int a0, char* a1[]){unsigned char l0;return 0;}. -/
theorem claim_C1 :
    accept 6 mainFn
      = some "int main(int a0, char* a1[])\x7bunsigned char l0;return 0;\x7d" := by
  decide

/-- Claim C2: each of the ten Primitive kinds renders to its fixed
token, the mapping is exhaustive over the kinds, and no kind renders the
empty string or fails. -/
theorem claim_C2 :
    (∀ k : Kind, accept 1 (Node.primitive k) = some (kindStr k) ∧ kindStr k ≠ "")
    ∧ accept 1 (Node.primitive Kind.i8) = some "char"
    ∧ accept 1 (Node.primitive Kind.i16) = some "short"
    ∧ accept 1 (Node.primitive Kind.i32) = some "int"
    ∧ accept 1 (Node.primitive Kind.i64) = some "long"
    ∧ accept 1 (Node.primitive Kind.u8) = some "unsigned char"
    ∧ accept 1 (Node.primitive Kind.u16) = some "unsigned short"
    ∧ accept 1 (Node.primitive Kind.u32) = some "unsigned int"
    ∧ accept 1 (Node.primitive Kind.u64) = some "unsigned long"
    ∧ accept 1 (Node.primitive Kind.f32) = some "float"
    ∧ accept 1 (Node.primitive Kind.f64) = some "double" := by
  refine ⟨fun k => ?_, rfl, rfl, rfl, rfl, rfl, rfl, rfl, rfl, rfl, rfl⟩
  cases k <;> exact ⟨rfl, by decide⟩

/-- Claim C3: a Block with statements rendering to ps renders as an
opening brace, then each statement rendering followed by a semicolon in
insertion order, then a closing brace; the empty Block renders exactly
as a brace pair, and a nested Block as a statement is also followed by a
semicolon. -/
theorem claim_C3 (f : Nat) (ns : List Node) (ps : List String)
    (h : collect (ns.map (fun m => accept f m)) = some ps) :
    accept (f+1) (Node.block ns) = some ("\x7b" ++ emitStmts ps ++ "\x7d")
    ∧ accept (f+1) (Node.block []) = some "\x7b\x7d"
    ∧ accept 3 (Node.block [Node.block []]) = some "\x7b\x7b\x7d;\x7d" := by
  refine ⟨?_, rfl, by decide⟩
  simp only [accept, h, Option.map_some']

/-- Witness for claim C3 at a concrete one-statement block. -/
theorem claim_C3_w :
    accept 2 (Node.block [Node.localVar "x"]) = some ("\x7b" ++ emitStmts ["x"] ++ "\x7d")
    ∧ accept 2 (Node.block []) = some "\x7b\x7d"
    ∧ accept 3 (Node.block [Node.block []]) = some "\x7b\x7b\x7d;\x7d" :=
  claim_C3 1 [Node.localVar "x"] ["x"] rfl

/-- Claim C4: a Function with zero parameters renders an empty pair of
parentheses with no comma, a Function joins its rendered parameters with
a comma and a space, a Call joins its rendered arguments with a bare
comma, and the separator recursion places no trailing separator (empty
list gives the empty string, and the separator appears only between
consecutive elements). -/
theorem claim_C4 (f : Nat) (nm : String) (rt body callee : Node)
    (rts bs cs : String) (params args : List Node) (pss argss : List String)
    (sep a b : String) (l : List String)
    (hrt : accept f rt = some rts) (hb : accept f body = some bs)
    (hp : collect (params.map (fun m => accept f m)) = some pss)
    (hc : accept f callee = some cs)
    (ha : collect (args.map (fun m => accept f m)) = some argss) :
    accept (f+1) (Node.function nm params (some rt) (some body))
      = some (rts ++ " " ++ nm ++ "(" ++ joinSep ", " pss ++ ")" ++ bs)
    ∧ accept (f+1) (Node.function nm [] (some rt) (some body))
      = some (rts ++ " " ++ nm ++ "()" ++ bs)
    ∧ accept (f+1) (Node.call (some callee) args)
      = some (cs ++ "(" ++ joinSep "," argss ++ ")")
    ∧ joinSep sep [] = ""
    ∧ joinSep sep (a :: b :: l) = a ++ sep ++ joinSep sep (b :: l) := by
  refine ⟨?_, ?_, ?_, rfl, rfl⟩
  · simp [accept, hrt, hb, hp]
  · simp [accept, hrt, hb, collect, joinSep, String.append_assoc, paren_lit]
  · simp [accept, hc, ha]

/-- Witness for claim C4 at a concrete function and call. -/
theorem claim_C4_w :
    accept 2 (Node.function "f" [Node.localVar "p"]
        (some (Node.primitive Kind.i32)) (some (Node.block [])))
      = some ("int" ++ " " ++ "f" ++ "(" ++ joinSep ", " ["p"] ++ ")" ++ "\x7b\x7d")
    ∧ accept 2 (Node.function "f" []
        (some (Node.primitive Kind.i32)) (some (Node.block [])))
      = some ("int" ++ " " ++ "f" ++ "()" ++ "\x7b\x7d")
    ∧ accept 2 (Node.call (some (Node.localVar "foo")) [Node.litInt 1, Node.litInt 2])
      = some ("foo" ++ "(" ++ joinSep "," ["1", "2"] ++ ")")
    ∧ joinSep ", " ([] : List String) = ""
    ∧ joinSep ", " ("x" :: "y" :: []) = "x" ++ ", " ++ joinSep ", " ("y" :: []) :=
  claim_C4 1 "f" (Node.primitive Kind.i32) (Node.block []) (Node.localVar "foo")
    "int" "\x7b\x7d" "foo" [Node.localVar "p"] [Node.litInt 1, Node.litInt 2]
    ["p"] ["1", "2"] ", " "x" "y" [] rfl rfl rfl rfl rfl

/-- Claim C5: an ArrayOf node whose inner node renders to s renders as s
followed by an opening bracket, the decimal size when it is positive and
nothing when it is zero, and a closing bracket; size zero is a valid
unsized state, not an error. -/
theorem claim_C5 (f n : Nat) (x : Node) (s : String)
    (h : accept f x = some s) :
    accept (f+1) (Node.arrayOf (some x) n)
      = some (s ++ "[" ++ (if 0 < n then toString n else "") ++ "]")
    ∧ accept (f+1) (Node.arrayOf (some x) 0) = some (s ++ "[]") := by
  have hbr : ("[" : String) ++ "]" = "[]" := rfl
  constructor
  · simp [accept, h]
  · simp [accept, h, String.append_assoc, hbr]

/-- Witness for claim C5 at a concrete char array of size three. -/
theorem claim_C5_w :
    accept 2 (Node.arrayOf (some (Node.primitive Kind.i8)) 3)
      = some ("char" ++ "[" ++ (if 0 < 3 then toString 3 else "") ++ "]")
    ∧ accept 2 (Node.arrayOf (some (Node.primitive Kind.i8)) 0)
      = some ("char" ++ "[]") :=
  claim_C5 1 3 (Node.primitive Kind.i8) "char" rfl

/-- Claim C6: for every node and every variant class, the downcast
accessor yields the typed view of the node exactly when the dynamic type
matches, and yields an absent result, never a crash, when it does not. -/
theorem claim_C6 (n : Node) (t : VTag) (hnot : t ≠ VTag.node) :
    (n.as t = some n ↔ n.vtag = t) ∧ (n.vtag ≠ t → n.as t = none) := by
  unfold Node.as
  by_cases hv : n.vtag = t
  · simp [hv]
  · simp [hv, hnot]

/-- Witness for claim C6 at a concrete Local node and the Local tag. -/
theorem claim_C6_w :
    ((Node.localVar "x").as VTag.localVar = some (Node.localVar "x")
        ↔ (Node.localVar "x").vtag = VTag.localVar)
    ∧ ((Node.localVar "x").vtag ≠ VTag.localVar
        → (Node.localVar "x").as VTag.localVar = none) :=
  claim_C6 (Node.localVar "x") VTag.localVar (by decide)

/-- Claim C7 evaluation: rendering a DeclLocal whose type child is
absent after default construction, or a PointerOf with an absent child,
dereferences the null unique_ptr and produces no result at all; there is
no labeled incomplete-node error anywhere in the code. -/
theorem claim_C7 :
    accept 1 (Node.declLocal "x" none) = none
    ∧ accept 1 (Node.pointerOf none) = none :=
  ⟨rfl, rfl⟩

/-- Claim C8: rendering the same tree twice through the code-generation
visitor, threading the visitor state of the first call into the second,
yields identical strings, and the visitor state is unchanged by a call
because the class has no members. -/
theorem claim_C8 (v : CodeGenVisitor) (f : Nat) (n : Node) :
    (renderWith v f n).1 = (renderWith (renderWith v f n).2 f n).1
    ∧ (renderWith v f n).2 = v :=
  ⟨rfl, rfl⟩

/-- Claim C9: rendering a bare base-class Node never produces a result,
for any amount of fuel: Node accept dispatches to the visit overload for
the base class, which calls accept on the same node again, a mutual
recursion with no base case. -/
theorem claim_C9 (f : Nat) : accept f Node.bare = none := by
  induction f with
  | zero => rfl
  | succ f ih => exact ih

/-- Claim C10: a DeclType rendered as an element of a Program or as a
statement of a Block yields a doubled semicolon after the closing brace
of the struct, because the DeclType rendering itself ends with a
semicolon and the container appends another one to every element. -/
theorem claim_C10 (f : Nat) (pre post fields : List Node) (nm : String)
    (preS postS fieldS : List String)
    (hpre : collect (pre.map (fun m => accept (f+1) m)) = some preS)
    (hpost : collect (post.map (fun m => accept (f+1) m)) = some postS)
    (hf : collect (fields.map (fun m => accept f m)) = some fieldS) :
    (∃ a b, accept (f+1+1) (Node.program (pre ++ Node.declType nm fields :: post))
        = some (a ++ "\x7d;;" ++ b))
    ∧ (∃ a b, accept (f+1+1) (Node.block (pre ++ Node.declType nm fields :: post))
        = some (a ++ "\x7d;;" ++ b)) := by
  have hdt : accept (f+1) (Node.declType nm fields)
      = some ("struct " ++ nm ++ "\x7b" ++ emitStmts fieldS ++ "\x7d;") := by
    simp only [accept, hf, Option.map_some']
  have hcoll : collect ((pre ++ Node.declType nm fields :: post).map
        (fun m => accept (f+1) m))
      = some (preS ++ ("struct " ++ nm ++ "\x7b" ++ emitStmts fieldS ++ "\x7d;") :: postS) := by
    rw [List.map_append, List.map_cons, hdt]
    exact collect_append hpre (by simp [collect, hpost])
  refine ⟨⟨emitStmts preS ++ ("struct " ++ nm ++ "\x7b" ++ emitStmts fieldS),
          emitStmts postS, ?_⟩,
         ⟨"\x7b" ++ emitStmts preS ++ ("struct " ++ nm ++ "\x7b" ++ emitStmts fieldS),
          emitStmts postS ++ "\x7d", ?_⟩⟩
  · simp only [accept, hcoll, Option.map_some']
    simp [emitStmts_append, emitStmts, String.append_assoc, semi_lit]
  · simp only [accept, hcoll, Option.map_some']
    simp [emitStmts_append, emitStmts, String.append_assoc, semi_lit]

/-- Witness for claim C10 at a one-element program and block holding an
empty struct declaration. -/
theorem claim_C10_w :
    (∃ a b, accept 2 (Node.program [Node.declType "P" []])
        = some (a ++ "\x7d;;" ++ b))
    ∧ (∃ a b, accept 2 (Node.block [Node.declType "P" []])
        = some (a ++ "\x7d;;" ++ b)) :=
  claim_C10 0 [] [] [] "P" [] [] [] rfl rfl rfl

end CGen
